import Mathlib

/-!
Verification development for the family-birthday-calendar backend
(src/backend/src/index.ts, flattened variant; src/backend/src/db.ts;
auth middleware in src/unnamed/part_000).

The HTTP handlers are embedded as pure functions over an explicit
database state.  Request bodies are modelled post-parse (the values the
zod schemas produce); schema constraints that matter to a theorem appear
as hypotheses.  Randomness (token ids, session ids, CSRF tokens) and the
clock are passed in as explicit parameters.  The Argon2 hash is modelled
as an injective tagging function, which preserves exactly the
verify-what-you-hashed behaviour the handlers rely on.
-/

namespace FBC

inductive Role where
  | user
  | admin
deriving DecidableEq, Repr

/-- Row of the `users` table (db.ts): id, username, display_name,
password_hash, must_set_password, role, birthday, venmo, created_at,
last_login_at. -/
structure User where
  id : String
  username : String
  displayName : Option String
  passwordHash : Option String
  mustSetPassword : Bool
  role : Role
  birthday : Option String
  venmo : Option String
  createdAt : Nat
  lastLoginAt : Option Nat
deriving DecidableEq, Repr

/-- Row of the `sessions` table: id, user_id, csrf_token, created_at,
expires_at. -/
structure Session where
  id : String
  userId : String
  csrfToken : String
  createdAt : Nat
  expiresAt : Nat
deriving DecidableEq, Repr

/-- Row of the `password_set_tokens` table: id, user_id, created_at,
expires_at. -/
structure SetupToken where
  id : String
  userId : String
  createdAt : Nat
  expiresAt : Nat
deriving DecidableEq, Repr

/-- The SQLite database state relevant to the authentication and
user-management claims. -/
structure Db where
  users : List User
  sessions : List Session
  tokens : List SetupToken
deriving DecidableEq, Repr

/-- Model of `argon2.hash(password, argon2id)`: an injective tag. -/
def argon2hash (password : String) : String :=
  "argon2id$" ++ password

/-- Model of `argon2.verify(hash, password)`. -/
def argon2verify (hash password : String) : Bool :=
  hash == argon2hash password

/-- JavaScript truthiness test on a nullable string column:
`!x` is true when `x` is null or the empty string. -/
def jsFalsy : Option String → Bool
  | none => true
  | some s => s == ""

/-- The onboarding predicate, exactly as written at index.ts:335-336,
410 and 450: `role === "user" && last_login_at == null &&
(!birthday || !venmo)`. -/
def needsSetupOf (u : User) : Bool :=
  u.role == Role.user && u.lastLoginAt.isNone && (jsFalsy u.birthday || jsFalsy u.venmo)

/-- The sanitized user view that login, set-password, /me and
/me/profile responses carry. -/
structure UserView where
  id : String
  username : String
  displayName : Option String
  role : Role
  birthday : Option String
  venmo : Option String
  lastLoginAt : Option Nat
  needsSetup : Bool
deriving DecidableEq, Repr

def mkView (u : User) (needsSetup : Bool) : UserView :=
  { id := u.id, username := u.username, displayName := u.displayName, role := u.role,
    birthday := u.birthday, venmo := u.venmo, lastLoginAt := u.lastLoginAt,
    needsSetup := needsSetup }

/-- The response view both login and set-password build on success:
`lastLoginAt: needsSetup ? null : loginAt` over the pre-operation row. -/
def authView (u : User) (now : Nat) : UserView :=
  { id := u.id, username := u.username, displayName := u.displayName, role := u.role,
    birthday := u.birthday, venmo := u.venmo,
    lastLoginAt := if needsSetupOf u then none else some now,
    needsSetup := needsSetupOf u }

/-- The needsSetup formula of the specification, read over a response
view: role is user, lastLoginAt unset, and birthday or payment handle
unset. -/
def specNeedsSetup (v : UserView) : Prop :=
  v.role = Role.user ∧ v.lastLoginAt = none ∧ (v.birthday = none ∨ v.venmo = none)

/-- Reachable user rows never store an empty string in birthday or
venmo (both zod schemas demand non-empty shapes). -/
def userWf (u : User) : Prop :=
  u.birthday ≠ some "" ∧ u.venmo ≠ some ""

/-- HTTP responses of the embedded handlers: an error with status and
machine-readable code, the password-setup response of login, an
authenticated user-with-csrfToken response, a bare user response, an
id-carrying creation response, or an ok response. -/
inductive ApiResponse where
  | error (status : Nat) (code : String)
  | setupRequired (setupToken : String) (username : String) (displayName : Option String)
  | authOk (user : UserView) (csrfToken : String)
  | userOk (user : UserView)
  | created (id : String)
  | ok
deriving DecidableEq, Repr

/-- SQL `lower()` on a text value. -/
def lowerStr (s : String) : String :=
  String.mk (s.data.map Char.toLower)

/-- `SELECT ... FROM users WHERE lower(username) = lower(?)` with
`.get` (first row). -/
def findUserByUsername (db : Db) (username : String) : Option User :=
  db.users.find? (fun u => lowerStr u.username == lowerStr username)

/-- `SELECT ... FROM users WHERE id = ?` with `.get`. -/
def findUserById (users : List User) (id : String) : Option User :=
  users.find? (fun u => u.id == id)

/-- Setup-token TTL: `15 * 60 * 1000` ms (index.ts:309). -/
def SETUP_TOKEN_TTL_MS : Nat := 15 * 60 * 1000

/-- `newSession` in the auth module: fresh session with expiry
`now + SESSION_TTL_DAYS * 24 * 60 * 60 * 1000`. -/
def mkSession (userId sessionId csrfToken : String) (now ttlDays : Nat) : Session :=
  { id := sessionId, userId := userId, csrfToken := csrfToken,
    createdAt := now, expiresAt := now + ttlDays * 24 * 60 * 60 * 1000 }

/-- Fresh random values a login request may consume. -/
structure LoginFresh where
  tokenId : String
  sessionId : String
  csrfToken : String
deriving DecidableEq, Repr

/-- Fresh random values a set-password request may consume. -/
structure SessionFresh where
  sessionId : String
  csrfToken : String
deriving DecidableEq, Repr

/-- POST /api/auth/login (index.ts:274-355), body already parsed by
`LoginSchema`. -/
def login (db : Db) (username password : String) (now : Nat)
    (fresh : LoginFresh) (ttlDays : Nat) : ApiResponse × Db :=
  match findUserByUsername db username with
  | none => (ApiResponse.error 401 "invalid_credentials", db)
  | some u =>
    if u.mustSetPassword || jsFalsy u.passwordHash then
      let remaining := db.tokens.filter (fun t => t.userId != u.id)
      let tok : SetupToken :=
        { id := fresh.tokenId, userId := u.id, createdAt := now,
          expiresAt := now + SETUP_TOKEN_TTL_MS }
      (ApiResponse.setupRequired fresh.tokenId u.username u.displayName,
       { db with tokens := remaining ++ [tok] })
    else if argon2verify (u.passwordHash.getD "") password = false then
      (ApiResponse.error 401 "invalid_credentials", db)
    else
      let sessions := db.sessions.filter (fun s => s.userId != u.id)
      let s := mkSession u.id fresh.sessionId fresh.csrfToken now ttlDays
      let needsSetup := needsSetupOf u
      let users :=
        if needsSetup then db.users
        else db.users.map (fun w =>
          if w.id = u.id then { w with lastLoginAt := some now } else w)
      (ApiResponse.authOk (authView u now) fresh.csrfToken,
       { users := users, sessions := sessions ++ [s], tokens := db.tokens })

/-- `SetPasswordSchema`: setupToken 1..256 chars, password 12..256 chars. -/
def setPasswordRequestValid (setupToken password : String) : Bool :=
  1 ≤ setupToken.length && setupToken.length ≤ 256 &&
    12 ≤ password.length && password.length ≤ 256

/-- POST /api/auth/set-password (index.ts:362-429). -/
def setPassword (db : Db) (setupToken password : String) (now : Nat)
    (fresh : SessionFresh) (ttlDays : Nat) : ApiResponse × Db :=
  if setPasswordRequestValid setupToken password = false then
    (ApiResponse.error 400 "invalid_request", db)
  else
    match db.tokens.find? (fun t => t.id == setupToken) with
    | none => (ApiResponse.error 401 "invalid_setup_token", db)
    | some tok =>
      if tok.expiresAt ≤ now then
        (ApiResponse.error 401 "invalid_setup_token",
         { db with tokens := db.tokens.filter (fun t => t.id != tok.id) })
      else
        match findUserById db.users tok.userId with
        | none =>
          (ApiResponse.error 401 "invalid_setup_token",
           { db with tokens := db.tokens.filter (fun t => t.id != tok.id) })
        | some u =>
          let hash := argon2hash password
          let users1 := db.users.map (fun w =>
            if w.id = u.id then { w with passwordHash := some hash, mustSetPassword := false }
            else w)
          let tokens := db.tokens.filter (fun t => t.id != tok.id)
          let sessions := db.sessions.filter (fun s => s.userId != u.id)
          let s := mkSession u.id fresh.sessionId fresh.csrfToken now ttlDays
          let needsSetup := needsSetupOf u
          let users2 :=
            if needsSetup then users1
            else users1.map (fun w =>
              if w.id = u.id then { w with lastLoginAt := some now } else w)
          (ApiResponse.authOk (authView u now) fresh.csrfToken,
           { users := users2, sessions := sessions ++ [s], tokens := tokens })

/-- Parsed body of PUT /api/me/profile (`ProfileSchema`): each field
optional, no null values possible. -/
structure ProfileFields where
  displayName : Option String
  birthday : Option String
  venmo : Option String
deriving DecidableEq, Repr

/-- The `refine` on `ProfileSchema`: `v.displayName || v.birthday || v.venmo`. -/
def profileFieldsPresent (f : ProfileFields) : Bool :=
  !(jsFalsy f.displayName) || !(jsFalsy f.birthday) || !(jsFalsy f.venmo)

/-- Parsed profile fields are never the empty string. -/
def profileFieldsWf (f : ProfileFields) : Prop :=
  f.displayName ≠ some "" ∧ f.birthday ≠ some "" ∧ f.venmo ≠ some ""

/-- `COALESCE(@new, old)` where `@new` is `provided ?? null`. -/
def coalesce (new old : Option String) : Option String :=
  match new with
  | some v => some v
  | none => old

/-- PUT /api/me/profile (index.ts:462-517) for the authenticated user
with the given id.  `requireAuth` guarantees the user row exists; the
impossible missing-row case surfaces the central 500 handler. -/
def updateProfile (db : Db) (userId : String) (f : ProfileFields) (now : Nat) :
    ApiResponse × Db :=
  if profileFieldsPresent f = false then (ApiResponse.error 400 "invalid_request", db)
  else
    let users1 := db.users.map (fun w =>
      if w.id = userId then
        { w with birthday := coalesce f.birthday w.birthday,
                 venmo := coalesce f.venmo w.venmo,
                 displayName := coalesce f.displayName w.displayName }
      else w)
    match findUserById users1 userId with
    | none => (ApiResponse.error 500 "internal_error", { db with users := users1 })
    | some updated =>
      if updated.role == Role.user && updated.lastLoginAt.isNone
          && !(jsFalsy updated.birthday) && !(jsFalsy updated.venmo) then
        let users2 := users1.map (fun w =>
          if w.id = userId then { w with lastLoginAt := some now } else w)
        let fin := { updated with lastLoginAt := some now }
        (ApiResponse.userOk (mkView fin (needsSetupOf fin)), { db with users := users2 })
      else
        (ApiResponse.userOk (mkView updated (needsSetupOf updated)), { db with users := users1 })

/-- GET /api/me (index.ts:448-452) given the authenticated user. -/
def meGet (u : User) : ApiResponse :=
  ApiResponse.userOk (mkView u (needsSetupOf u))

/-- Number of rows `SELECT COUNT(1) FROM users WHERE role = 'admin'`
returns. -/
def countAdmins (users : List User) : Nat :=
  users.countP (fun u => u.role == Role.admin)

/-- Parsed body of PATCH /api/admin/users/:id (`UpdateUserSchema`):
the outer Option is presence in the JSON body, the inner Option of the
nullable fields is the JSON null. -/
structure AdminPatch where
  username : Option String
  displayName : Option (Option String)
  role : Option Role
  birthday : Option (Option String)
  venmo : Option (Option String)
  lastLoginAt : Option (Option Nat)
deriving DecidableEq, Repr

/-- The `refine` on `UpdateUserSchema`: at least one field defined. -/
def adminPatchPresent (p : AdminPatch) : Bool :=
  p.username.isSome || p.displayName.isSome || p.role.isSome ||
    p.birthday.isSome || p.venmo.isSome || p.lastLoginAt.isSome

/-- The dynamic `SET` clause applied to the matched row. -/
def applyPatch (p : AdminPatch) (w : User) : User :=
  { w with
    username := p.username.getD w.username,
    displayName := p.displayName.getD w.displayName,
    role := p.role.getD w.role,
    birthday := p.birthday.getD w.birthday,
    venmo := p.venmo.getD w.venmo,
    lastLoginAt := p.lastLoginAt.getD w.lastLoginAt }

/-- The UNIQUE(username) violation the UPDATE may raise. -/
def patchUsernameConflict (db : Db) (userId : String) (p : AdminPatch) : Bool :=
  match p.username with
  | some newName => db.users.any (fun u => u.id != userId && u.username == newName)
  | none => false

/-- PATCH /api/admin/users/:id (index.ts:819-908). -/
def adminPatchUser (db : Db) (userId : String) (p : AdminPatch) : ApiResponse × Db :=
  if userId = "" then (ApiResponse.error 400 "invalid_request", db)
  else if adminPatchPresent p = false then (ApiResponse.error 400 "invalid_request", db)
  else
    match findUserById db.users userId with
    | none => (ApiResponse.error 404 "not_found", db)
    | some existing =>
      if existing.role = Role.admin ∧ p.role = some Role.user ∧ countAdmins db.users ≤ 1 then
        (ApiResponse.error 409 "cannot_remove_last_admin", db)
      else if patchUsernameConflict db userId p = true then
        (ApiResponse.error 409 "username_taken", db)
      else
        (ApiResponse.ok,
         { db with users := db.users.map (fun w =>
             if w.id = userId then applyPatch p w else w) })

/-- DELETE /api/admin/users/:id (index.ts:910-929); the row deletion
cascades to the user's sessions and setup tokens (foreign keys with ON
DELETE CASCADE, db.ts). -/
def adminDeleteUser (db : Db) (userId : String) : ApiResponse × Db :=
  if userId = "" then (ApiResponse.error 400 "invalid_request", db)
  else
    match findUserById db.users userId with
    | none => (ApiResponse.error 404 "not_found", db)
    | some existing =>
      if existing.role = Role.admin ∧ countAdmins db.users ≤ 1 then
        (ApiResponse.error 409 "cannot_delete_last_admin", db)
      else
        (ApiResponse.ok,
         { users := db.users.filter (fun u => u.id != userId),
           sessions := db.sessions.filter (fun s => s.userId != userId),
           tokens := db.tokens.filter (fun t => t.userId != userId) })

/-- One admin user-management request of the kind claim C1 quantifies
over: a PATCH or a DELETE on /api/admin/users/:id. -/
inductive AdminOp where
  | patchOp (userId : String) (p : AdminPatch)
  | deleteOp (userId : String)

/-- State reached after one admin user-management request. -/
def applyAdminOp (db : Db) (op : AdminOp) : Db :=
  match op with
  | AdminOp.patchOp uid p => (adminPatchUser db uid p).2
  | AdminOp.deleteOp uid => (adminDeleteUser db uid).2

/-- State reached after a sequence of admin user-management requests. -/
def applyAdminOps (db : Db) (ops : List AdminOp) : Db :=
  ops.foldl applyAdminOp db

/-- `ResetPasswordSchema` / password floor shared by the create and
reset bodies: 12..256 chars. -/
def passwordLenValid (p : String) : Bool :=
  12 ≤ p.length && p.length ≤ 256

/-- POST /api/admin/users/:id/reset-password (index.ts:935-958). -/
def adminResetPassword (db : Db) (userId password : String) : ApiResponse × Db :=
  if userId = "" then (ApiResponse.error 400 "invalid_request", db)
  else if passwordLenValid password = false then (ApiResponse.error 400 "invalid_request", db)
  else if db.users.any (fun u => u.id == userId) = false then
    (ApiResponse.error 404 "not_found", db)
  else
    let hash := argon2hash password
    (ApiResponse.ok,
     { users := db.users.map (fun w =>
         if w.id = userId then { w with passwordHash := some hash, mustSetPassword := false }
         else w),
       sessions := db.sessions.filter (fun s => s.userId != userId),
       tokens := db.tokens.filter (fun t => t.userId != userId) })

/-- Character class of `UsernameSchema` regex `[a-z0-9._-]`. -/
def usernameCharOk (c : Char) : Bool :=
  c.isLower || c.isDigit || c == '.' || c == '_' || c == '-'

/-- `UsernameSchema` regex: 3 to 32 characters of the restricted
alphabet, on the trimmed-lowercased input. -/
def usernameValid (s : String) : Bool :=
  3 ≤ s.length && s.length ≤ 32 && s.toList.all usernameCharOk

/-- `CreateUserSchemaRefined` validity: username shape, optional
password 12..256 chars, optional displayName 1..80 chars, and an admin
role demands a password. -/
def createUserRequestValid (username : String) (displayName password : Option String)
    (role : Option Role) : Bool :=
  usernameValid username &&
    (match password with
     | some p => passwordLenValid p
     | none => true) &&
    (match displayName with
     | some d => 1 ≤ d.length && d.length ≤ 80
     | none => true) &&
    (!(role.getD Role.user == Role.admin) || password.isSome)

/-- POST /api/admin/users (index.ts:764-797): insert with birthday,
venmo and last_login_at defaulting to NULL, must_set_password set iff
no password hash. -/
def adminCreateUser (db : Db) (freshId username : String) (displayName : Option String)
    (password : Option String) (role : Option Role) (now : Nat) : ApiResponse × Db :=
  if createUserRequestValid username displayName password role = false then
    (ApiResponse.error 400 "invalid_request", db)
  else
    let r := role.getD Role.user
    let hash := password.map argon2hash
    if db.users.any (fun u => u.username == username) then
      (ApiResponse.error 409 "username_taken", db)
    else
      (ApiResponse.created freshId,
       { db with users := db.users ++
           [{ id := freshId, username := username, displayName := displayName,
              passwordHash := hash, mustSetPassword := hash.isNone, role := r,
              birthday := none, venmo := none, createdAt := now, lastLoginAt := none }] })

/-- `authMiddleware`: resolve the session cookie to a session and its
user, deleting the row lazily when expired. -/
def resolveSession (db : Db) (cookie : Option String) (now : Nat) :
    Option (Session × User) × Db :=
  match cookie with
  | none => (none, db)
  | some token =>
    if token = "" then (none, db)
    else
      match db.sessions.find? (fun s => s.id == token) with
      | none => (none, db)
      | some s =>
        match findUserById db.users s.userId with
        | none => (none, db)
        | some u =>
          if s.expiresAt ≤ now then
            (none, { db with sessions := db.sessions.filter (fun t => t.id != token) })
          else (some (s, u), db)

inductive Method where
  | GET
  | HEAD
  | OPTIONS
  | POST
  | PUT
  | PATCH
  | DELETE
deriving DecidableEq, Repr

inductive GateResult where
  | pass
  | reject (status : Nat) (code : String)
deriving DecidableEq, Repr

/-- The three paths the /api CSRF gate lets through (index.ts:230-239). -/
def csrfExemptPath (path : String) : Bool :=
  path == "/auth/login" || path == "/auth/logout" || path == "/auth/set-password"

def safeMethod (m : Method) : Bool :=
  m == Method.GET || m == Method.HEAD || m == Method.OPTIONS

/-- `requireCsrf`: safe methods pass, no session is 401, a missing,
empty or mismatching `x-csrf-token` header is 403. -/
def requireCsrf (method : Method) (session : Option Session) (header : Option String) :
    GateResult :=
  if safeMethod method then GateResult.pass
  else
    match session with
    | none => GateResult.reject 401 "unauthorized"
    | some s =>
      match header with
      | none => GateResult.reject 403 "csrf"
      | some t =>
        if t = "" ∨ t ≠ s.csrfToken then GateResult.reject 403 "csrf"
        else GateResult.pass

/-- The /api-wide middleware: exempt the three auth paths, otherwise
enforce `requireCsrf`. -/
def apiCsrfGate (path : String) (method : Method) (session : Option Session)
    (header : Option String) : GateResult :=
  if csrfExemptPath path then GateResult.pass
  else requireCsrf method session header

/-- The full middleware chain of PUT /api/me/profile: auth middleware,
CSRF gate, requireAuth, then the handler. -/
def putProfilePipeline (db : Db) (cookie header : Option String) (f : ProfileFields)
    (now : Nat) : ApiResponse × Db :=
  match resolveSession db cookie now with
  | (auth, db1) =>
    match apiCsrfGate "/me/profile" Method.PUT (auth.map Prod.fst) header with
    | GateResult.reject st code => (ApiResponse.error st code, db1)
    | GateResult.pass =>
      match auth with
      | none => (ApiResponse.error 401 "unauthorized", db1)
      | some (_, u) => updateProfile db1 u.id f now

/-! Concrete fixtures used by witnesses and counterexamples. -/

/-- A fully onboarded normal user whose first login was already
stamped. -/
def alice : User :=
  { id := "u1", username := "alice", displayName := some "Alice",
    passwordHash := some (argon2hash "correct-horse-1"), mustSetPassword := false,
    role := Role.user, birthday := some "1990-05-01", venmo := some "@alice",
    createdAt := 0, lastLoginAt := some 5 }

/-- A user in the no-password state. -/
def bob : User :=
  { id := "u2", username := "bob", displayName := none,
    passwordHash := none, mustSetPassword := true, role := Role.user,
    birthday := none, venmo := none, createdAt := 0, lastLoginAt := none }

/-- A desynchronized record: a stored hash together with
must_set_password = 1. -/
def carol : User :=
  { id := "u3", username := "carol", displayName := some "Carol",
    passwordHash := some (argon2hash "password-12chars"), mustSetPassword := true,
    role := Role.user, birthday := none, venmo := none, createdAt := 0,
    lastLoginAt := none }

/-- The sole admin account. -/
def adminRoot : User :=
  { id := "a1", username := "root", displayName := some "Administrator",
    passwordHash := some (argon2hash "change-me-please-1234"), mustSetPassword := false,
    role := Role.admin, birthday := none, venmo := none, createdAt := 0,
    lastLoginAt := some 1 }

def sess1 : Session :=
  { id := "s-old", userId := "u1", csrfToken := "csrf-old", createdAt := 0,
    expiresAt := 1000000 }

def tok1 : SetupToken :=
  { id := "tokA", userId := "u2", createdAt := 0, expiresAt := 900000 }

def db0 : Db :=
  { users := [adminRoot, alice, bob, carol], sessions := [sess1], tokens := [tok1] }

def fresh0 : LoginFresh :=
  { tokenId := "new-tok", sessionId := "new-sess", csrfToken := "new-csrf" }

def sfresh0 : SessionFresh :=
  { sessionId := "new-sess", csrfToken := "new-csrf" }

/-- The demote-to-user patch body. -/
def patchDemote : AdminPatch :=
  { username := none, displayName := none, role := some Role.user,
    birthday := none, venmo := none, lastLoginAt := none }

/-! Theorems. -/

/-- C2: a login whose username resolves to an account with no stored
password hash returns the password-setup flow carrying the fresh token,
the username and the display name; the submitted password is ignored
(the whole outcome is independent of it), no session is created, and
the outcome is never 401 invalid_credentials. -/
theorem C2_login_no_password_always_setup (db : Db) (username password password2 : String)
    (now : Nat) (fresh : LoginFresh) (ttlDays : Nat) (u : User)
    (hfind : findUserByUsername db username = some u)
    (hnopw : u.passwordHash = none) :
    (login db username password now fresh ttlDays).1
        = ApiResponse.setupRequired fresh.tokenId u.username u.displayName ∧
    (login db username password now fresh ttlDays).2.sessions = db.sessions ∧
    login db username password now fresh ttlDays
        = login db username password2 now fresh ttlDays ∧
    (login db username password now fresh ttlDays).1
        ≠ ApiResponse.error 401 "invalid_credentials" := by
  have hcond : (u.mustSetPassword || jsFalsy u.passwordHash) = true := by
    rw [hnopw]; simp [jsFalsy]
  simp [login, hfind, hcond]

theorem C2_witness :
    (login db0 "bob" "whatever-pass" 50 fresh0 30).1
      = ApiResponse.setupRequired "new-tok" "bob" none :=
  (C2_login_no_password_always_setup db0 "bob" "whatever-pass" "other-pass" 50 fresh0 30 bob
    (by decide) rfl).1

/-- C3: a login whose username matches no stored account
(case-insensitively) returns 401 invalid_credentials for every
password, and that response is identical to the one produced by a
wrong-password attempt against an existing password-set account. -/
theorem C3_unknown_user_indistinguishable (db : Db) (username password : String)
    (now : Nat) (fresh : LoginFresh) (ttlDays : Nat)
    (hnone : findUserByUsername db username = none) :
    (login db username password now fresh ttlDays).1
        = ApiResponse.error 401 "invalid_credentials" ∧
    (∀ (db2 : Db) (username2 password2 : String) (now2 : Nat) (fresh2 : LoginFresh)
        (ttlDays2 : Nat) (u2 : User) (h2 : String),
      findUserByUsername db2 username2 = some u2 →
      u2.mustSetPassword = false →
      u2.passwordHash = some h2 →
      h2 ≠ "" →
      argon2verify h2 password2 = false →
      (login db2 username2 password2 now2 fresh2 ttlDays2).1
        = (login db username password now fresh ttlDays).1) := by
  constructor
  · simp [login, hnone]
  · intro db2 username2 password2 now2 fresh2 ttlDays2 u2 h2 hfind2 hflag2 hhash2 hne2 hver2
    have hcond : (u2.mustSetPassword || jsFalsy u2.passwordHash) = false := by
      rw [hflag2, hhash2]
      simp [jsFalsy, hne2]
    have hget : u2.passwordHash.getD "" = h2 := by rw [hhash2]; rfl
    simp [login, hnone, hfind2, hcond, hget, hver2]

theorem C3_witness :
    (login db0 "mallory" "any-password" 0 fresh0 30).1
      = ApiResponse.error 401 "invalid_credentials" :=
  (C3_unknown_user_indistinguishable db0 "mallory" "any-password" 0 fresh0 30 (by decide)).1

/-- C10: a login that resolves to a record with must_set_password set
takes the password-setup branch even when a password hash is stored:
the response is the setup flow, a fresh setup token is inserted, no
session is created, the outcome is independent of the submitted
password, and it is never an authenticated response. -/
theorem C10_must_set_password_overrides_hash (db : Db) (username password password2 : String)
    (now : Nat) (fresh : LoginFresh) (ttlDays : Nat) (u : User)
    (hfind : findUserByUsername db username = some u)
    (hflag : u.mustSetPassword = true) :
    (login db username password now fresh ttlDays).1
        = ApiResponse.setupRequired fresh.tokenId u.username u.displayName ∧
    (login db username password now fresh ttlDays).2.sessions = db.sessions ∧
    ({ id := fresh.tokenId, userId := u.id, createdAt := now,
       expiresAt := now + SETUP_TOKEN_TTL_MS } : SetupToken)
        ∈ (login db username password now fresh ttlDays).2.tokens ∧
    login db username password now fresh ttlDays
        = login db username password2 now fresh ttlDays ∧
    (∀ v c, (login db username password now fresh ttlDays).1 ≠ ApiResponse.authOk v c) := by
  have hcond : (u.mustSetPassword || jsFalsy u.passwordHash) = true := by
    rw [hflag]; rfl
  simp [login, hfind, hcond]

theorem C10_witness :
    (login db0 "carol" "password-12chars" 7 fresh0 30).1
      = ApiResponse.setupRequired "new-tok" "carol" (some "Carol") :=
  (C10_must_set_password_overrides_hash db0 "carol" "password-12chars" "zzz" 7 fresh0 30 carol
    (by decide) rfl).1

/-- Helper: set-password on a token id absent from the store is a 401
invalid_setup_token. -/
theorem setPassword_token_absent (db : Db) (tok pwd : String) (now : Nat)
    (fresh : SessionFresh) (ttlDays : Nat)
    (hreq : setPasswordRequestValid tok pwd = true)
    (h : db.tokens.find? (fun t => t.id == tok) = none) :
    (setPassword db tok pwd now fresh ttlDays).1
      = ApiResponse.error 401 "invalid_setup_token" := by
  simp [setPassword, hreq, h]

/-- C4: under foreign-key integrity and a well-formed request body,
set-password fails with 401 invalid_setup_token exactly when the
presented token is absent from the store or already expired; an expired
token is deleted during the lookup, and a successful consumption
deletes the token so an immediate second consumption fails with 401
invalid_setup_token. -/
theorem C4_setup_token_consume_iff (db : Db) (tok pwd : String) (now : Nat)
    (fresh : SessionFresh) (ttlDays : Nat)
    (hreq : setPasswordRequestValid tok pwd = true)
    (hfk : ∀ t ∈ db.tokens, ∃ u ∈ db.users, u.id = t.userId) :
    ((setPassword db tok pwd now fresh ttlDays).1 = ApiResponse.error 401 "invalid_setup_token"
      ↔ (db.tokens.find? (fun t => t.id == tok) = none ∨
         ∃ t, db.tokens.find? (fun t2 => t2.id == tok) = some t ∧ t.expiresAt ≤ now)) ∧
    (∀ t, db.tokens.find? (fun t2 => t2.id == tok) = some t → t.expiresAt ≤ now →
       ∀ t2 ∈ (setPassword db tok pwd now fresh ttlDays).2.tokens, t2.id ≠ tok) ∧
    ((setPassword db tok pwd now fresh ttlDays).1 ≠ ApiResponse.error 401 "invalid_setup_token" →
       (∀ t2 ∈ (setPassword db tok pwd now fresh ttlDays).2.tokens, t2.id ≠ tok) ∧
       (setPassword (setPassword db tok pwd now fresh ttlDays).2 tok pwd now fresh ttlDays).1
         = ApiResponse.error 401 "invalid_setup_token") := by
  cases hfind : db.tokens.find? (fun t => t.id == tok) with
  | none =>
    refine ⟨?_, ?_, ?_⟩
    · simp [setPassword, hreq, hfind]
    · intro t ht
      simp at ht
    · intro hne
      exact absurd (by simp [setPassword, hreq, hfind]) hne
  | some tk =>
    have hid : tk.id = tok := by
      have := List.find?_some hfind
      simpa using this
    by_cases hexp : tk.expiresAt ≤ now
    · have htoks : (setPassword db tok pwd now fresh ttlDays).2.tokens
          = db.tokens.filter (fun t => t.id != tk.id) := by
        simp [setPassword, hreq, hfind, hexp]
      refine ⟨?_, ?_, ?_⟩
      · constructor
        · intro _; exact Or.inr ⟨tk, rfl, hexp⟩
        · intro _; simp [setPassword, hreq, hfind, hexp]
      · intro t ht hexp2 t2 hmem
        rw [htoks] at hmem
        have hne := (List.mem_filter.mp hmem).2
        simp only [bne_iff_ne, ne_eq] at hne
        rw [← hid]
        exact hne
      · intro hne
        exact absurd (by simp [setPassword, hreq, hfind, hexp]) hne
    · have htkmem : tk ∈ db.tokens := List.mem_of_find?_eq_some hfind
      obtain ⟨u0, hu0mem, hu0id⟩ := hfk tk htkmem
      have hfu : findUserById db.users tk.userId ≠ none := by
        intro hno
        have := List.find?_eq_none.mp hno u0 hu0mem
        simp [hu0id] at this
      cases hfu2 : findUserById db.users tk.userId with
      | none => exact absurd hfu2 hfu
      | some u =>
        have hres : (setPassword db tok pwd now fresh ttlDays).1
            = ApiResponse.authOk (authView u now) fresh.csrfToken := by
          simp [setPassword, hreq, hfind, hexp, hfu2]
        have htoks : (setPassword db tok pwd now fresh ttlDays).2.tokens
            = db.tokens.filter (fun t => t.id != tk.id) := by
          simp [setPassword, hreq, hfind, hexp, hfu2]
        refine ⟨?_, ?_, ?_⟩
        · rw [hres]
          constructor
          · intro h; exact absurd h (by simp)
          · intro h
            rcases h with h | ⟨t, ht, hexp2⟩
            · exact absurd h (by simp)
            · injection ht with hteq
              rw [← hteq] at hexp2
              exact absurd hexp2 hexp
        · intro t ht hexp2
          injection ht with hteq
          rw [← hteq] at hexp2
          exact absurd hexp2 hexp
        · intro _
          have hall : ∀ t2 ∈ (setPassword db tok pwd now fresh ttlDays).2.tokens, t2.id ≠ tok := by
            intro t2 hmem
            rw [htoks] at hmem
            have hne := (List.mem_filter.mp hmem).2
            simp only [bne_iff_ne, ne_eq] at hne
            rw [← hid]
            exact hne
          refine ⟨hall, ?_⟩
          have hfind2 : (setPassword db tok pwd now fresh ttlDays).2.tokens.find?
              (fun t => t.id == tok) = none := by
            apply List.find?_eq_none.mpr
            intro x hx
            simp [hall x hx]
          exact setPassword_token_absent _ tok pwd now fresh ttlDays hreq hfind2

theorem C4_witness :
    (setPassword (setPassword db0 "tokA" "brand-new-password" 10 sfresh0 30).2
        "tokA" "brand-new-password" 10 sfresh0 30).1
      = ApiResponse.error 401 "invalid_setup_token" :=
  ((C4_setup_token_consume_iff db0 "tokA" "brand-new-password" 10 sfresh0 30
      (by decide) (by decide)).2.2 (by decide)).2

/-- C5: assuming unique session ids (primary key), a successful
admin-initiated password reset deletes every session and every setup
token of the target user, and none of the user's pre-existing sessions
resolves afterwards; a successful self-service set-password likewise
makes every session issued to that user before the operation fail to
resolve (the freshly issued session has a different id). -/
theorem C5_password_change_revokes_sessions (db : Db)
    (hsnd : (db.sessions.map Session.id).Nodup) :
    (∀ uid pwd, uid ≠ "" → passwordLenValid pwd = true →
       db.users.any (fun u => u.id == uid) = true →
       (adminResetPassword db uid pwd).1 = ApiResponse.ok ∧
       (∀ s2 ∈ db.sessions, s2.userId = uid →
          ∀ now2, (resolveSession (adminResetPassword db uid pwd).2 (some s2.id) now2).1
            = none) ∧
       (∀ t ∈ (adminResetPassword db uid pwd).2.tokens, t.userId ≠ uid)) ∧
    (∀ tok pwd now fresh ttlDays tk u, setPasswordRequestValid tok pwd = true →
       db.tokens.find? (fun t => t.id == tok) = some tk →
       ¬ tk.expiresAt ≤ now →
       findUserById db.users tk.userId = some u →
       (∀ s2 ∈ db.sessions, s2.userId = u.id → s2.id ≠ fresh.sessionId →
          ∀ now2, (resolveSession (setPassword db tok pwd now fresh ttlDays).2
            (some s2.id) now2).1 = none)) := by
  constructor
  · intro uid pwd huid hpw hex
    have hsess : (adminResetPassword db uid pwd).2.sessions
        = db.sessions.filter (fun s => s.userId != uid) := by
      simp [adminResetPassword, huid, hpw, hex]
    have htoks : (adminResetPassword db uid pwd).2.tokens
        = db.tokens.filter (fun t => t.userId != uid) := by
      simp [adminResetPassword, huid, hpw, hex]
    refine ⟨by simp [adminResetPassword, huid, hpw, hex], ?_, ?_⟩
    · intro s2 hmem huid2 now2
      by_cases hsid : s2.id = ""
      · simp [resolveSession, hsid]
      · have hfind : (adminResetPassword db uid pwd).2.sessions.find?
            (fun s => s.id == s2.id) = none := by
          rw [hsess]
          apply List.find?_eq_none.mpr
          intro x hx
          obtain ⟨hxmem, hxuid⟩ := List.mem_filter.mp hx
          simp only [bne_iff_ne, ne_eq] at hxuid
          simp only [beq_iff_eq]
          intro hxid
          have : x = s2 := List.inj_on_of_nodup_map hsnd hxmem hmem hxid
          rw [this] at hxuid
          exact hxuid huid2
        simp [resolveSession, hsid, hfind]
    · intro t hmem
      rw [htoks] at hmem
      have := (List.mem_filter.mp hmem).2
      simpa using this
  · intro tok pwd now fresh ttlDays tk u hreq hfindtok hnexp hfindu s2 hmem huid2 hnid now2
    have hsess : (setPassword db tok pwd now fresh ttlDays).2.sessions
        = db.sessions.filter (fun s => s.userId != u.id)
            ++ [mkSession u.id fresh.sessionId fresh.csrfToken now ttlDays] := by
      simp [setPassword, hreq, hfindtok, hnexp, hfindu]
    by_cases hsid : s2.id = ""
    · simp [resolveSession, hsid]
    · have hfind : (setPassword db tok pwd now fresh ttlDays).2.sessions.find?
          (fun s => s.id == s2.id) = none := by
        rw [hsess]
        apply List.find?_eq_none.mpr
        intro x hx
        rcases List.mem_append.mp hx with hx1 | hx2
        · obtain ⟨hxmem, hxuid⟩ := List.mem_filter.mp hx1
          simp only [bne_iff_ne, ne_eq] at hxuid
          simp only [beq_iff_eq]
          intro hxid
          have : x = s2 := List.inj_on_of_nodup_map hsnd hxmem hmem hxid
          rw [this] at hxuid
          exact hxuid huid2
        · have hx2e : x = mkSession u.id fresh.sessionId fresh.csrfToken now ttlDays := by
            simpa using hx2
          simp only [beq_iff_eq]
          intro hxid
          rw [hx2e] at hxid
          exact hnid (by simpa [mkSession] using hxid.symm)
      simp [resolveSession, hsid, hfind]

theorem C5_witness :
    (adminResetPassword db0 "u1" "new-password-123").1 = ApiResponse.ok :=
  ((C5_password_change_revokes_sessions db0 (by decide)).1 "u1" "new-password-123"
    (by decide) (by decide) (by decide)).1

/-- Helper: on a column that is never the empty string, JavaScript
falsiness coincides with SQL NULL. -/
theorem jsFalsy_eq_isNone (o : Option String) (h : o ≠ some "") :
    jsFalsy o = o.isNone := by
  cases o with
  | none => rfl
  | some s =>
    have hs : s ≠ "" := fun he => h (by rw [he])
    simp [jsFalsy, hs]

/-- Helper: on a well-formed row the code's needsSetup boolean agrees
with the specification formula over the stored fields. -/
theorem needsSetupOf_iff_spec (u : User) (hwf : userWf u) :
    needsSetupOf u = true
      ↔ (u.role = Role.user ∧ u.lastLoginAt = none ∧
         (u.birthday = none ∨ u.venmo = none)) := by
  obtain ⟨hb, hv⟩ := hwf
  rw [needsSetupOf, jsFalsy_eq_isNone _ hb, jsFalsy_eq_isNone _ hv]
  simp [Bool.and_eq_true, Bool.or_eq_true, Option.isNone_iff_eq_none, and_assoc]

/-- Helper: the login/set-password success view satisfies the
needsSetup equivalence. -/
theorem authView_spec (u : User) (now : Nat) (hwf : userWf u) :
    ((authView u now).needsSetup = true ↔ specNeedsSetup (authView u now)) := by
  by_cases hns : needsSetupOf u = true
  · have hspec := (needsSetupOf_iff_spec u hwf).mp hns
    simp [authView, specNeedsSetup, hns, hspec.1, hspec.2.2]
  · have hnsf : needsSetupOf u = false := by simpa using hns
    simp [authView, specNeedsSetup, hnsf]

/-- Helper: an id-preserving row transformation commutes with the
by-id lookup. -/
theorem findUserById_map (l : List User) (g : User → User) (uid : String)
    (hg : ∀ w, (g w).id = w.id) :
    findUserById (l.map g) uid = (findUserById l uid).map g := by
  unfold findUserById
  have hpred : ((fun u => u.id == uid) ∘ g) = (fun u => u.id == uid) := by
    funext w
    simp [Function.comp, hg w]
  rw [List.find?_map, hpred]

/-- Helper: merging well-formed non-empty fields into a well-formed
row keeps it well-formed. -/
theorem userWf_coalesce (u0 : User) (f : ProfileFields)
    (hw : userWf u0) (hf : profileFieldsWf f) :
    userWf { u0 with birthday := coalesce f.birthday u0.birthday,
                     venmo := coalesce f.venmo u0.venmo,
                     displayName := coalesce f.displayName u0.displayName } := by
  obtain ⟨hb, hv⟩ := hw
  obtain ⟨hfd, hfb, hfv⟩ := hf
  constructor
  · cases hfb2 : f.birthday with
    | none => simpa [coalesce] using hb
    | some b =>
      simp only [coalesce]
      intro he
      rw [hfb2] at hfb
      rw [he] at hfb
      exact hfb rfl
  · cases hfv2 : f.venmo with
    | none => simpa [coalesce] using hv
    | some b =>
      simp only [coalesce]
      intro he
      rw [hfv2] at hfv
      rw [he] at hfv
      exact hfv rfl

/-- C6: in every response carrying a user view (GET /me, PUT
/me/profile, successful login and set-password), and for the state
right after account creation, the needsSetup field is true exactly when
the view's role is user, its lastLoginAt is null, and its birthday or
payment handle is unset. -/
theorem C6_needsSetup_formula :
    (∀ (u : User) (v : UserView), userWf u → meGet u = ApiResponse.userOk v →
       (v.needsSetup = true ↔ specNeedsSetup v)) ∧
    (∀ (db : Db) (username password : String) (now : Nat) (fresh : LoginFresh)
        (ttlDays : Nat) (v : UserView) (c : String),
       (∀ w ∈ db.users, userWf w) →
       (login db username password now fresh ttlDays).1 = ApiResponse.authOk v c →
       (v.needsSetup = true ↔ specNeedsSetup v)) ∧
    (∀ (db : Db) (tok pwd : String) (now : Nat) (fresh : SessionFresh) (ttlDays : Nat)
        (v : UserView) (c : String),
       (∀ w ∈ db.users, userWf w) →
       (setPassword db tok pwd now fresh ttlDays).1 = ApiResponse.authOk v c →
       (v.needsSetup = true ↔ specNeedsSetup v)) ∧
    (∀ (db : Db) (uid : String) (f : ProfileFields) (now : Nat) (v : UserView),
       (∀ w ∈ db.users, userWf w) → profileFieldsWf f →
       (updateProfile db uid f now).1 = ApiResponse.userOk v →
       (v.needsSetup = true ↔ specNeedsSetup v)) ∧
    (∀ (db : Db) (freshId username : String) (displayName password : Option String)
        (role : Option Role) (now : Nat) (rid : String),
       (adminCreateUser db freshId username displayName password role now).1
         = ApiResponse.created rid →
       ∃ newU, (adminCreateUser db freshId username displayName password role now).2.users
           = db.users ++ [newU] ∧
         ((mkView newU (needsSetupOf newU)).needsSetup = true
           ↔ specNeedsSetup (mkView newU (needsSetupOf newU)))) := by
  refine ⟨?_, ?_, ?_, ?_, ?_⟩
  · intro u v hwf h
    simp only [meGet, ApiResponse.userOk.injEq] at h
    rw [← h]
    simpa [mkView, specNeedsSetup] using needsSetupOf_iff_spec u hwf
  · intro db username password now fresh ttlDays v c hwall hres
    cases hfind : findUserByUsername db username with
    | none => simp [login, hfind] at hres
    | some u =>
      have hu : u ∈ db.users := List.mem_of_find?_eq_some hfind
      by_cases hcond : (u.mustSetPassword || jsFalsy u.passwordHash) = true
      · simp [login, hfind, hcond] at hres
      · have hcnd2 : (u.mustSetPassword || jsFalsy u.passwordHash) = false := by
          simpa using hcond
        by_cases hver : argon2verify (u.passwordHash.getD "") password = false
        · simp [login, hfind, hcnd2, hver] at hres
        · have hv2 : argon2verify (u.passwordHash.getD "") password = true := by
            simpa using hver
          have heq : (login db username password now fresh ttlDays).1
              = ApiResponse.authOk (authView u now) fresh.csrfToken := by
            simp [login, hfind, hcnd2, hv2]
          rw [heq] at hres
          injection hres with h1 h2
          rw [← h1]
          exact authView_spec u now (hwall u hu)
  · intro db tok pwd now fresh ttlDays v c hwall hres
    by_cases hreq : setPasswordRequestValid tok pwd = false
    · simp [setPassword, hreq] at hres
    · have hreq2 : setPasswordRequestValid tok pwd = true := by simpa using hreq
      cases hfind : db.tokens.find? (fun t => t.id == tok) with
      | none => simp [setPassword, hreq2, hfind] at hres
      | some tk =>
        by_cases hexp : tk.expiresAt ≤ now
        · simp [setPassword, hreq2, hfind, hexp] at hres
        · cases hfu : findUserById db.users tk.userId with
          | none => simp [setPassword, hreq2, hfind, hexp, hfu] at hres
          | some u =>
            have hu : u ∈ db.users :=
              List.mem_of_find?_eq_some (by simpa [findUserById] using hfu)
            have heq : (setPassword db tok pwd now fresh ttlDays).1
                = ApiResponse.authOk (authView u now) fresh.csrfToken := by
              simp [setPassword, hreq2, hfind, hexp, hfu]
            rw [heq] at hres
            injection hres with h1 h2
            rw [← h1]
            exact authView_spec u now (hwall u hu)
  · intro db uid f now v hwall hfwf hres
    by_cases hp : profileFieldsPresent f = false
    · simp [updateProfile, hp] at hres
    · have hp2 : profileFieldsPresent f = true := by simpa using hp
      cases hfu : findUserById db.users uid with
      | none =>
        have hmap : findUserById (db.users.map (fun w =>
            if w.id = uid then
              { w with birthday := coalesce f.birthday w.birthday,
                       venmo := coalesce f.venmo w.venmo,
                       displayName := coalesce f.displayName w.displayName }
            else w)) uid = none := by
          rw [findUserById_map]
          · rw [hfu]; rfl
          · intro w
            by_cases h : w.id = uid <;> simp [h]
        simp [updateProfile, hp2, hmap] at hres
      | some u0 =>
        have hu0 : u0 ∈ db.users :=
          List.mem_of_find?_eq_some (by simpa [findUserById] using hfu)
        have hu0id : u0.id = uid := by
          have := List.find?_some (p := fun (u : User) => u.id == uid)
            (by simpa [findUserById] using hfu)
          simpa using this
        have hmap : findUserById (db.users.map (fun w =>
            if w.id = uid then
              { w with birthday := coalesce f.birthday w.birthday,
                       venmo := coalesce f.venmo w.venmo,
                       displayName := coalesce f.displayName w.displayName }
            else w)) uid
            = some { u0 with birthday := coalesce f.birthday u0.birthday,
                             venmo := coalesce f.venmo u0.venmo,
                             displayName := coalesce f.displayName u0.displayName } := by
          rw [findUserById_map]
          · rw [hfu]
            simp [hu0id]
          · intro w
            by_cases h : w.id = uid <;> simp [h]
        have hwupd := userWf_coalesce u0 f (hwall u0 hu0) hfwf
        obtain ⟨u1, hu1⟩ : ∃ u1 : User,
            ({ u0 with
                birthday := coalesce f.birthday u0.birthday,
                venmo := coalesce f.venmo u0.venmo,
                displayName := coalesce f.displayName u0.displayName } : User) = u1 :=
          ⟨_, rfl⟩
        rw [hu1] at hmap hwupd
        by_cases hstamp : (u1.role == Role.user && u1.lastLoginAt.isNone
            && !(jsFalsy u1.birthday) && !(jsFalsy u1.venmo)) = true
        · simp [updateProfile, hp2, hmap, hstamp] at hres
          rw [← hres]
          simp [mkView, specNeedsSetup, needsSetupOf]
        · have hstamp2 : (u1.role == Role.user && u1.lastLoginAt.isNone
              && !(jsFalsy u1.birthday) && !(jsFalsy u1.venmo)) = false := by
            simpa using hstamp
          simp [updateProfile, hp2, hmap, hstamp2] at hres
          rw [← hres]
          simpa [mkView, specNeedsSetup] using needsSetupOf_iff_spec u1 hwupd
  · intro db freshId username displayName password role now rid hres
    by_cases hval : createUserRequestValid username displayName password role = false
    · simp [adminCreateUser, hval] at hres
    · have hval2 : createUserRequestValid username displayName password role = true := by
        simpa using hval
      by_cases hdup : db.users.any (fun u => u.username == username) = true
      · simp [adminCreateUser, hval2, hdup] at hres
      · have hdup2 : db.users.any (fun u => u.username == username) = false := by
          simpa using hdup
        refine ⟨{ id := freshId, username := username, displayName := displayName,
                  passwordHash := Option.map argon2hash password,
                  mustSetPassword := (Option.map argon2hash password).isNone,
                  role := role.getD Role.user, birthday := none, venmo := none,
                  createdAt := now, lastLoginAt := none }, ?_, ?_⟩
        · simp [adminCreateUser, hval2, hdup2]
        · simp [mkView, specNeedsSetup, needsSetupOf, jsFalsy, beq_iff_eq]

theorem C6_witness :
    ((mkView alice (needsSetupOf alice)).needsSetup = true
      ↔ specNeedsSetup (mkView alice (needsSetupOf alice))) :=
  C6_needsSetup_formula.1 alice (mkView alice (needsSetupOf alice))
    ⟨by decide, by decide⟩ rfl

/-- Helper: merging keeps a present optional value present. -/
theorem coalesce_keeps_some (new old : Option String) (h : old.isSome = true) :
    (coalesce new old).isSome = true := by
  cases new with
  | none => simpa [coalesce] using h
  | some v => simp [coalesce]

/-- C9: PUT /me/profile is a partial update: omitted fields keep their
previous stored values, a previously set field stays set, and the
update never touches identity, username, role or the password hash. -/
theorem C9_profile_update_frame (db : Db) (uid : String) (f : ProfileFields) (now : Nat)
    (u : User) (hfind : findUserById db.users uid = some u) :
    ∃ u2, findUserById (updateProfile db uid f now).2.users uid = some u2 ∧
      (f.displayName = none → u2.displayName = u.displayName) ∧
      (f.birthday = none → u2.birthday = u.birthday) ∧
      (f.venmo = none → u2.venmo = u.venmo) ∧
      (u.displayName.isSome = true → u2.displayName.isSome = true) ∧
      (u.birthday.isSome = true → u2.birthday.isSome = true) ∧
      (u.venmo.isSome = true → u2.venmo.isSome = true) ∧
      u2.id = u.id ∧ u2.username = u.username ∧ u2.role = u.role ∧
      u2.passwordHash = u.passwordHash := by
  by_cases hp : profileFieldsPresent f = false
  · refine ⟨u, ?_, fun _ => rfl, fun _ => rfl, fun _ => rfl,
      fun h => h, fun h => h, fun h => h, rfl, rfl, rfl, rfl⟩
    simpa [updateProfile, hp] using hfind
  · have hp2 : profileFieldsPresent f = true := by simpa using hp
    have hu0id : u.id = uid := by
      have := List.find?_some (p := fun (w : User) => w.id == uid)
        (by simpa [findUserById] using hfind)
      simpa using this
    have hmap : findUserById (db.users.map (fun w =>
        if w.id = uid then
          { w with birthday := coalesce f.birthday w.birthday,
                   venmo := coalesce f.venmo w.venmo,
                   displayName := coalesce f.displayName w.displayName }
        else w)) uid
        = some { u with birthday := coalesce f.birthday u.birthday,
                        venmo := coalesce f.venmo u.venmo,
                        displayName := coalesce f.displayName u.displayName } := by
      rw [findUserById_map]
      · rw [hfind]
        simp [hu0id]
      · intro w
        by_cases h : w.id = uid <;> simp [h]
    obtain ⟨u1, hu1⟩ : ∃ u1 : User,
        ({ u with birthday := coalesce f.birthday u.birthday,
                  venmo := coalesce f.venmo u.venmo,
                  displayName := coalesce f.displayName u.displayName } : User) = u1 :=
      ⟨_, rfl⟩
    rw [hu1] at hmap
    have hd : u1.displayName = coalesce f.displayName u.displayName := by rw [← hu1]
    have hbf : u1.birthday = coalesce f.birthday u.birthday := by rw [← hu1]
    have hvf : u1.venmo = coalesce f.venmo u.venmo := by rw [← hu1]
    have hid1 : u1.id = u.id := by rw [← hu1]
    have husr : u1.username = u.username := by rw [← hu1]
    have hrole : u1.role = u.role := by rw [← hu1]
    have hph : u1.passwordHash = u.passwordHash := by rw [← hu1]
    by_cases hstamp : (u1.role == Role.user && u1.lastLoginAt.isNone
        && !(jsFalsy u1.birthday) && !(jsFalsy u1.venmo)) = true
    · have hfind2 : findUserById (updateProfile db uid f now).2.users uid
          = some { u1 with lastLoginAt := some now } := by
        have husers : (updateProfile db uid f now).2.users
            = (db.users.map (fun w =>
                if w.id = uid then
                  { w with birthday := coalesce f.birthday w.birthday,
                           venmo := coalesce f.venmo w.venmo,
                           displayName := coalesce f.displayName w.displayName }
                else w)).map (fun w =>
                  if w.id = uid then { w with lastLoginAt := some now } else w) := by
          simp [updateProfile, hp2, hmap, hstamp]
        rw [husers, findUserById_map, hmap]
        · simp [hid1, hu0id]
        · intro w
          by_cases h : w.id = uid <;> simp [h]
      refine ⟨{ u1 with lastLoginAt := some now }, hfind2, ?_, ?_, ?_, ?_, ?_, ?_,
        hid1, husr, hrole, hph⟩
      · intro h; rw [show ({ u1 with lastLoginAt := some now } : User).displayName
          = u1.displayName from rfl, hd, h]; rfl
      · intro h; rw [show ({ u1 with lastLoginAt := some now } : User).birthday
          = u1.birthday from rfl, hbf, h]; rfl
      · intro h; rw [show ({ u1 with lastLoginAt := some now } : User).venmo
          = u1.venmo from rfl, hvf, h]; rfl
      · intro h; rw [show ({ u1 with lastLoginAt := some now } : User).displayName
          = u1.displayName from rfl, hd]; exact coalesce_keeps_some _ _ h
      · intro h; rw [show ({ u1 with lastLoginAt := some now } : User).birthday
          = u1.birthday from rfl, hbf]; exact coalesce_keeps_some _ _ h
      · intro h; rw [show ({ u1 with lastLoginAt := some now } : User).venmo
          = u1.venmo from rfl, hvf]; exact coalesce_keeps_some _ _ h
    · have hstamp2 : (u1.role == Role.user && u1.lastLoginAt.isNone
          && !(jsFalsy u1.birthday) && !(jsFalsy u1.venmo)) = false := by
        simpa using hstamp
      have hfind2 : findUserById (updateProfile db uid f now).2.users uid = some u1 := by
        have husers : (updateProfile db uid f now).2.users
            = db.users.map (fun w =>
                if w.id = uid then
                  { w with birthday := coalesce f.birthday w.birthday,
                           venmo := coalesce f.venmo w.venmo,
                           displayName := coalesce f.displayName w.displayName }
                else w) := by
          simp [updateProfile, hp2, hmap, hstamp2]
        rw [husers, hmap]
      refine ⟨u1, hfind2, ?_, ?_, ?_, ?_, ?_, ?_, hid1, husr, hrole, hph⟩
      · intro h; rw [hd, h]; rfl
      · intro h; rw [hbf, h]; rfl
      · intro h; rw [hvf, h]; rfl
      · intro h; rw [hd]; exact coalesce_keeps_some _ _ h
      · intro h; rw [hbf]; exact coalesce_keeps_some _ _ h
      · intro h; rw [hvf]; exact coalesce_keeps_some _ _ h

theorem C9_witness :
    ∃ u2, findUserById (updateProfile db0 "u1"
        { displayName := none, birthday := some "1991-02-03", venmo := none } 99).2.users
        "u1" = some u2 ∧
      (none = (none : Option String) → u2.displayName = alice.displayName) ∧
      (some "1991-02-03" = (none : Option String) → u2.birthday = alice.birthday) ∧
      (none = (none : Option String) → u2.venmo = alice.venmo) ∧
      (alice.displayName.isSome = true → u2.displayName.isSome = true) ∧
      (alice.birthday.isSome = true → u2.birthday.isSome = true) ∧
      (alice.venmo.isSome = true → u2.venmo.isSome = true) ∧
      u2.id = alice.id ∧ u2.username = alice.username ∧ u2.role = alice.role ∧
      u2.passwordHash = alice.passwordHash :=
  C9_profile_update_frame db0 "u1"
    { displayName := none, birthday := some "1991-02-03", venmo := none } 99 alice
    (by decide)

/-- Helper: a cookie that resolves to a live session does not change
the database during resolution. -/
theorem resolveSession_valid_db (db : Db) (cookie : Option String) (now : Nat)
    (x : Session × User) (h : (resolveSession db cookie now).1 = some x) :
    (resolveSession db cookie now).2 = db := by
  cases cookie with
  | none => simp [resolveSession] at h
  | some token =>
    by_cases ht : token = ""
    · simp [resolveSession, ht] at h
    · cases hfs : db.sessions.find? (fun s => s.id == token) with
      | none => simp [resolveSession, ht, hfs] at h
      | some s =>
        cases hfu : findUserById db.users s.userId with
        | none => simp [resolveSession, ht, hfs, hfu] at h
        | some u =>
          by_cases hexp : s.expiresAt ≤ now
          · simp [resolveSession, ht, hfs, hfu, hexp] at h
          · simp [resolveSession, ht, hfs, hfu, hexp]

/-- C8: a PUT /me/profile carrying a valid unexpired session cookie but
a missing or mismatching x-csrf-token header is rejected with 403 and
leaves the whole database (in particular the user's stored profile)
unchanged; moreover the CSRF gate lets a request with a missing, empty
or mismatching header through only on the three exempt auth paths or
the safe methods GET, HEAD and OPTIONS. -/
theorem C8_csrf_rejects_and_preserves (db : Db) (cookie header : Option String)
    (f : ProfileFields) (now : Nat) (s : Session) (u : User)
    (hres : (resolveSession db cookie now).1 = some (s, u))
    (hbad : header = none ∨ ∃ h, header = some h ∧ h ≠ s.csrfToken) :
    (putProfilePipeline db cookie header f now).1 = ApiResponse.error 403 "csrf" ∧
    (putProfilePipeline db cookie header f now).2 = db ∧
    (∀ (path : String) (m : Method) (sess : Option Session) (hdr : Option String),
       apiCsrfGate path m sess hdr = GateResult.pass →
       (hdr = none ∨ hdr = some "" ∨
        (∀ s2, sess = some s2 → hdr ≠ some s2.csrfToken)) →
       (path = "/auth/login" ∨ path = "/auth/logout" ∨ path = "/auth/set-password" ∨
        m = Method.GET ∨ m = Method.HEAD ∨ m = Method.OPTIONS)) := by
  have hdb := resolveSession_valid_db db cookie now _ hres
  have hpair : resolveSession db cookie now = (some (s, u), db) :=
    Prod.ext hres hdb
  have hexempt : csrfExemptPath "/me/profile" = false := by decide
  have hsafe : safeMethod Method.PUT = false := by decide
  have hgate : apiCsrfGate "/me/profile" Method.PUT (some s) header
      = GateResult.reject 403 "csrf" := by
    rcases hbad with hnone | ⟨h, hhe, hne⟩
    · rw [hnone]
      simp [apiCsrfGate, hexempt, requireCsrf, hsafe]
    · rw [hhe]
      simp [apiCsrfGate, hexempt, requireCsrf, hsafe]
      exact fun _ => hne
  refine ⟨?_, ?_, ?_⟩
  · simp [putProfilePipeline, hpair, hgate]
  · simp [putProfilePipeline, hpair, hgate]
  · intro path m sess hdr hpass hbadh
    by_cases hex : csrfExemptPath path = true
    · simp only [csrfExemptPath, Bool.or_eq_true, beq_iff_eq] at hex
      tauto
    · have hex2 : csrfExemptPath path = false := by simpa using hex
      rw [apiCsrfGate, hex2] at hpass
      simp only [Bool.false_eq_true, if_false] at hpass
      by_cases hsm : safeMethod m = true
      · simp only [safeMethod, Bool.or_eq_true, beq_iff_eq] at hsm
        tauto
      · have hsm2 : safeMethod m = false := by simpa using hsm
        cases sess with
        | none => simp [requireCsrf, hsm2] at hpass
        | some s2 =>
          cases hdr with
          | none => simp [requireCsrf, hsm2] at hpass
          | some t =>
            simp only [requireCsrf, hsm2, Bool.false_eq_true, if_false] at hpass
            by_cases hc : t = "" ∨ t ≠ s2.csrfToken
            · rw [if_pos hc] at hpass
              cases hpass
            · rw [if_neg hc] at hpass
              push_neg at hc
              rcases hbadh with h1 | h2 | h3
              · cases h1
              · injection h2 with h2e
                exact absurd h2e hc.1
              · exact absurd (by rw [hc.2]) (h3 s2 rfl)

theorem C8_witness :
    (putProfilePipeline db0 (some "s-old") (some "wrong-token")
        { displayName := none, birthday := some "1999-01-01", venmo := none } 10).1
      = ApiResponse.error 403 "csrf" :=
  (C8_csrf_rejects_and_preserves db0 (some "s-old") (some "wrong-token")
    { displayName := none, birthday := some "1999-01-01", venmo := none } 10 sess1 alice
    (by decide) (Or.inr ⟨"wrong-token", rfl, by decide⟩)).1

/-- C7 counterexample: a user whose lastLoginAt is already stamped at
time 5 logs in successfully again at time 10, and the stored
lastLoginAt is rewritten to 10 — it is not frozen at the
first-stamping time. -/
theorem C7_counterexample :
    alice.lastLoginAt = some 5 ∧
    (findUserById (login db0 "alice" "correct-horse-1" 10 fresh0 30).2.users "u1").map
        User.lastLoginAt = some (some 10) := by
  constructor
  · rfl
  · decide

/-- C7 amended: lastLoginAt is frozen only with respect to profile
updates — PUT /me/profile never changes a non-null lastLoginAt — but
every later successful password-verified login rewrites it to the
current time (the login handler stamps it whenever needsSetup is
false, which holds once it is non-null). -/
theorem C7_last_login_restamped_on_login (db : Db) (username password : String)
    (now : Nat) (fresh : LoginFresh) (ttlDays : Nat) (u : User) (h : String) (t0 : Nat)
    (hfind : findUserByUsername db username = some u)
    (hflag : u.mustSetPassword = false)
    (hph : u.passwordHash = some h) (hne : h ≠ "")
    (hver : argon2verify h password = true)
    (hstamped : u.lastLoginAt = some t0) :
    (findUserById (login db username password now fresh ttlDays).2.users u.id).map
        User.lastLoginAt = (findUserById db.users u.id).map (fun _ => some now) ∧
    (∀ (db2 : Db) (uid : String) (f : ProfileFields) (now2 : Nat) (u2 : User),
       findUserById db2.users uid = some u2 → u2.lastLoginAt.isSome = true →
       (findUserById (updateProfile db2 uid f now2).2.users uid).map User.lastLoginAt
         = some u2.lastLoginAt) := by
  constructor
  · have hns : needsSetupOf u = false := by simp [needsSetupOf, hstamped]
    have hcnd2 : (u.mustSetPassword || jsFalsy u.passwordHash) = false := by
      rw [hflag, hph]
      simp [jsFalsy, hne]
    have hget : u.passwordHash.getD "" = h := by rw [hph]; rfl
    have husers : (login db username password now fresh ttlDays).2.users
        = db.users.map (fun w =>
            if w.id = u.id then { w with lastLoginAt := some now } else w) := by
      simp [login, hfind, hcnd2, hget, hver, hns]
    rw [husers, findUserById_map]
    · cases hfw : findUserById db.users u.id with
      | none => rfl
      | some w =>
        have hwid : w.id = u.id := by
          have := List.find?_some (p := fun (x : User) => x.id == u.id)
            (by simpa [findUserById] using hfw)
          simpa using this
        simp [hwid]
    · intro w
      by_cases hw : w.id = u.id <;> simp [hw]
  · intro db2 uid f now2 u2 hf2 hsome
    by_cases hp : profileFieldsPresent f = false
    · simp [updateProfile, hp, hf2]
    · have hp2 : profileFieldsPresent f = true := by simpa using hp
      have hu0id : u2.id = uid := by
        have := List.find?_some (p := fun (w : User) => w.id == uid)
          (by simpa [findUserById] using hf2)
        simpa using this
      have hmap : findUserById (db2.users.map (fun w =>
          if w.id = uid then
            { w with birthday := coalesce f.birthday w.birthday,
                     venmo := coalesce f.venmo w.venmo,
                     displayName := coalesce f.displayName w.displayName }
          else w)) uid
          = some { u2 with birthday := coalesce f.birthday u2.birthday,
                           venmo := coalesce f.venmo u2.venmo,
                           displayName := coalesce f.displayName u2.displayName } := by
        rw [findUserById_map]
        · rw [hf2]
          simp [hu0id]
        · intro w
          by_cases hw : w.id = uid <;> simp [hw]
      obtain ⟨u1, hu1⟩ : ∃ u1 : User,
          ({ u2 with birthday := coalesce f.birthday u2.birthday,
                     venmo := coalesce f.venmo u2.venmo,
                     displayName := coalesce f.displayName u2.displayName } : User) = u1 :=
        ⟨_, rfl⟩
      rw [hu1] at hmap
      have hl : u1.lastLoginAt = u2.lastLoginAt := by rw [← hu1]
      have hstamp2 : (u1.role == Role.user && u1.lastLoginAt.isNone
          && !(jsFalsy u1.birthday) && !(jsFalsy u1.venmo)) = false := by
        rw [hl]
        rcases Option.isSome_iff_exists.mp hsome with ⟨t, ht⟩
        simp [ht]
      have husers : (updateProfile db2 uid f now2).2.users
          = db2.users.map (fun w =>
              if w.id = uid then
                { w with birthday := coalesce f.birthday w.birthday,
                         venmo := coalesce f.venmo w.venmo,
                         displayName := coalesce f.displayName w.displayName }
              else w) := by
        simp [updateProfile, hp2, hmap, hstamp2]
      rw [husers, hmap]
      simp [hl]

theorem C7_witness :
    (findUserById (login db0 "alice" "correct-horse-1" 10 fresh0 30).2.users
        alice.id).map User.lastLoginAt
      = (findUserById db0.users alice.id).map (fun _ => some 10) :=
  (C7_last_login_restamped_on_login db0 "alice" "correct-horse-1" 10 fresh0 30 alice
    (argon2hash "correct-horse-1") 5 (by decide) rfl rfl (by decide) (by decide) rfl).1

/-- Helper: with unique ids, the by-id lookup of a member returns that
member. -/
theorem findUserById_of_nodup (l : List User) (u : User)
    (hnd : (l.map User.id).Nodup) (hmem : u ∈ l) :
    findUserById l u.id = some u := by
  unfold findUserById
  cases hf : l.find? (fun w => w.id == u.id) with
  | none =>
    exact absurd (List.find?_eq_none.mp hf u hmem) (by simp)
  | some w =>
    have hwmem : w ∈ l := List.mem_of_find?_eq_some hf
    have hwid : w.id = u.id := by simpa using List.find?_some hf
    have : w = u := List.inj_on_of_nodup_map hnd hwmem hmem hwid
    rw [this]

/-- Helper: rewriting at most the one row with a given unique id
removes at most one admin. -/
theorem countAdmins_le_map_update (l : List User) (uid : String) (g : User → User)
    (hnd : (l.map User.id).Nodup) :
    countAdmins l ≤ countAdmins (l.map (fun w => if w.id = uid then g w else w)) + 1 := by
  induction l with
  | nil => simp [countAdmins]
  | cons w t ih =>
    have hnd2 : (t.map User.id).Nodup := by
      rw [List.map_cons] at hnd
      exact (List.nodup_cons.mp hnd).2
    have hnotin : w.id ∉ t.map User.id := by
      rw [List.map_cons] at hnd
      exact (List.nodup_cons.mp hnd).1
    by_cases h : w.id = uid
    · have hx : ∀ x ∈ t, (if x.id = uid then g x else x) = x := by
        intro x hxm
        have hne : x.id ≠ uid := by
          intro he
          have hin : x.id ∈ t.map User.id := List.mem_map_of_mem User.id hxm
          rw [he, ← h] at hin
          exact hnotin hin
        rw [if_neg hne]
      have htmap : t.map (fun w2 => if w2.id = uid then g w2 else w2) = t := by
        conv_rhs => rw [← List.map_id t]
        exact List.map_congr_left (fun x hxm => by rw [hx x hxm]; rfl)
      simp only [List.map_cons, htmap, if_pos h, countAdmins, List.countP_cons]
      split_ifs <;> omega
    · have ht := ih hnd2
      simp only [countAdmins] at ht
      simp only [List.map_cons, if_neg h, countAdmins, List.countP_cons]
      split_ifs <;> omega

/-- Helper: deleting the rows of one unique id removes at most one
admin. -/
theorem countAdmins_le_filter_erase (l : List User) (uid : String)
    (hnd : (l.map User.id).Nodup) :
    countAdmins l ≤ countAdmins (l.filter (fun w => w.id != uid)) + 1 := by
  induction l with
  | nil => simp [countAdmins]
  | cons w t ih =>
    have hnd2 : (t.map User.id).Nodup := by
      rw [List.map_cons] at hnd
      exact (List.nodup_cons.mp hnd).2
    have hnotin : w.id ∉ t.map User.id := by
      rw [List.map_cons] at hnd
      exact (List.nodup_cons.mp hnd).1
    by_cases h : w.id = uid
    · have htfil : t.filter (fun w2 => w2.id != uid) = t := by
        apply List.filter_eq_self.mpr
        intro x hxm
        have hne : x.id ≠ uid := by
          intro he
          have hin : x.id ∈ t.map User.id := List.mem_map_of_mem User.id hxm
          rw [he, ← h] at hin
          exact hnotin hin
        simpa using hne
      have hbw : (w.id != uid) = false := by simpa using h
      simp only [List.filter_cons, hbw, if_false, htfil, countAdmins, List.countP_cons,
        Bool.false_eq_true]
      split_ifs <;> omega
    · have hbw : (w.id != uid) = true := by simpa using h
      have ht := ih hnd2
      simp only [countAdmins] at ht
      simp only [List.filter_cons, hbw, if_true, countAdmins, List.countP_cons]
      split_ifs <;> omega

/-- Helper: deleting rows of an id that names no admin leaves the
admin count unchanged. -/
theorem countAdmins_filter_of_target_not_admin (l : List User) (uid : String)
    (h : ∀ x ∈ l, x.id = uid → x.role ≠ Role.admin) :
    countAdmins (l.filter (fun w => w.id != uid)) = countAdmins l := by
  unfold countAdmins
  rw [List.countP_filter]
  apply List.countP_congr
  intro x hx
  constructor
  · intro hand
    exact (Bool.and_eq_true _ _).mp hand |>.1
  · intro hadm
    have hne : x.id ≠ uid := by
      intro he
      exact h x hx he (by simpa using hadm)
    simp [hadm, hne]

/-- Helper: a per-id rewrite that preserves adminhood of the matched
rows preserves the admin count. -/
theorem countAdmins_map_update_congr (l : List User) (uid : String) (g : User → User)
    (h : ∀ x ∈ l, x.id = uid → ((g x).role == Role.admin) = (x.role == Role.admin)) :
    countAdmins (l.map (fun w => if w.id = uid then g w else w)) = countAdmins l := by
  unfold countAdmins
  rw [List.countP_map]
  apply List.countP_congr
  intro x hx
  by_cases he : x.id = uid
  · simp only [Function.comp, if_pos he, h x hx he]
  · simp only [Function.comp, if_neg he]

/-- Helper: a per-id rewrite preserves the id column, hence its
uniqueness. -/
theorem nodup_ids_map_update (l : List User) (uid : String) (g : User → User)
    (hg : ∀ w, (g w).id = w.id) (hnd : (l.map User.id).Nodup) :
    ((l.map (fun w => if w.id = uid then g w else w)).map User.id).Nodup := by
  rw [List.map_map]
  have hcomp : (User.id ∘ fun w => if w.id = uid then g w else w) = User.id := by
    funext w
    by_cases h : w.id = uid <;> simp [Function.comp, h, hg]
  rw [hcomp]
  exact hnd

/-- Helper: a row filter keeps the id column unique. -/
theorem nodup_ids_filter (l : List User) (q : User → Bool)
    (hnd : (l.map User.id).Nodup) :
    ((l.filter q).map User.id).Nodup :=
  List.Nodup.sublist (List.Sublist.map User.id (List.filter_sublist l)) hnd

/-- Helper: one PATCH /admin/users/:id keeps at least one admin and
keeps ids unique. -/
theorem adminPatchUser_step (db : Db) (uid : String) (p : AdminPatch)
    (hnd : (db.users.map User.id).Nodup) (h1 : 1 ≤ countAdmins db.users) :
    1 ≤ countAdmins (adminPatchUser db uid p).2.users ∧
    (((adminPatchUser db uid p).2.users.map User.id).Nodup) := by
  by_cases he : uid = ""
  · have hdb : (adminPatchUser db uid p).2 = db := by simp [adminPatchUser, he]
    rw [hdb]; exact ⟨h1, hnd⟩
  by_cases hpres : adminPatchPresent p = false
  · have hdb : (adminPatchUser db uid p).2 = db := by simp [adminPatchUser, he, hpres]
    rw [hdb]; exact ⟨h1, hnd⟩
  have hpres2 : adminPatchPresent p = true := by simpa using hpres
  cases hfe : findUserById db.users uid with
  | none =>
    have hdb : (adminPatchUser db uid p).2 = db := by
      simp [adminPatchUser, he, hpres2, hfe]
    rw [hdb]; exact ⟨h1, hnd⟩
  | some existing =>
    by_cases hguard : existing.role = Role.admin ∧ p.role = some Role.user
        ∧ countAdmins db.users ≤ 1
    · have hdb : (adminPatchUser db uid p).2 = db := by
        simp [adminPatchUser, he, hpres2, hfe, hguard]
      rw [hdb]; exact ⟨h1, hnd⟩
    by_cases hconf : patchUsernameConflict db uid p = true
    · have hdb : (adminPatchUser db uid p).2 = db := by
        simp [adminPatchUser, he, hpres2, hfe, hguard, hconf]
      rw [hdb]; exact ⟨h1, hnd⟩
    have hconf2 : patchUsernameConflict db uid p = false := by simpa using hconf
    have hdb : (adminPatchUser db uid p).2.users
        = db.users.map (fun w => if w.id = uid then applyPatch p w else w) := by
      simp [adminPatchUser, he, hpres2, hfe, hguard, hconf2]
    have hexmem : existing ∈ db.users := List.mem_of_find?_eq_some
      (by simpa [findUserById] using hfe)
    have hexid : existing.id = uid := by
      have := List.find?_some (p := fun (w : User) => w.id == uid)
        (by simpa [findUserById] using hfe)
      simpa using this
    have hone : ∀ x ∈ db.users, x.id = uid → x = existing := by
      intro x hx hxe
      exact List.inj_on_of_nodup_map hnd hx hexmem (by rw [hxe, hexid])
    have hndafter : (((adminPatchUser db uid p).2.users).map User.id).Nodup := by
      rw [hdb]
      exact nodup_ids_map_update db.users uid (applyPatch p) (fun w => rfl) hnd
    refine ⟨?_, hndafter⟩
    rw [hdb]
    cases hr : p.role with
    | none =>
      rw [countAdmins_map_update_congr]
      · exact h1
      · intro x hx hxe
        have : (applyPatch p x).role = x.role := by simp [applyPatch, hr]
        rw [this]
    | some r =>
      cases r with
      | admin =>
        have hmono : countAdmins db.users
            ≤ countAdmins (db.users.map (fun w => if w.id = uid then applyPatch p w else w)) := by
          unfold countAdmins
          rw [List.countP_map]
          apply List.countP_mono_left
          intro x hx hadm
          by_cases hxe : x.id = uid
          · simp only [Function.comp, if_pos hxe]
            simp [applyPatch, hr]
          · simp only [Function.comp, if_neg hxe]
            exact hadm
        omega
      | user =>
        by_cases hexadm : existing.role = Role.admin
        · have hcnt2 : ¬(countAdmins db.users ≤ 1) := by
            intro hle
            exact hguard ⟨hexadm, hr, hle⟩
          have hle := countAdmins_le_map_update db.users uid (applyPatch p) hnd
          omega
        · rw [countAdmins_map_update_congr]
          · exact h1
          · intro x hx hxe
            have hxex : x = existing := hone x hx hxe
            have h2 : (applyPatch p x).role = Role.user := by simp [applyPatch, hr]
            rw [h2, hxex]
            have : existing.role ≠ Role.admin := hexadm
            cases hrx : existing.role with
            | user => rfl
            | admin => exact absurd hrx this

/-- Helper: one DELETE /admin/users/:id keeps at least one admin and
keeps ids unique. -/
theorem adminDeleteUser_step (db : Db) (uid : String)
    (hnd : (db.users.map User.id).Nodup) (h1 : 1 ≤ countAdmins db.users) :
    1 ≤ countAdmins (adminDeleteUser db uid).2.users ∧
    (((adminDeleteUser db uid).2.users.map User.id).Nodup) := by
  by_cases he : uid = ""
  · have hdb : (adminDeleteUser db uid).2 = db := by simp [adminDeleteUser, he]
    rw [hdb]; exact ⟨h1, hnd⟩
  cases hfe : findUserById db.users uid with
  | none =>
    have hdb : (adminDeleteUser db uid).2 = db := by simp [adminDeleteUser, he, hfe]
    rw [hdb]; exact ⟨h1, hnd⟩
  | some existing =>
    by_cases hguard : existing.role = Role.admin ∧ countAdmins db.users ≤ 1
    · have hdb : (adminDeleteUser db uid).2 = db := by
        simp [adminDeleteUser, he, hfe, hguard]
      rw [hdb]; exact ⟨h1, hnd⟩
    · have hdb : (adminDeleteUser db uid).2.users
          = db.users.filter (fun w => w.id != uid) := by
        simp [adminDeleteUser, he, hfe, hguard]
      have hexmem : existing ∈ db.users := List.mem_of_find?_eq_some
        (by simpa [findUserById] using hfe)
      have hexid : existing.id = uid := by
        have := List.find?_some (p := fun (w : User) => w.id == uid)
          (by simpa [findUserById] using hfe)
        simpa using this
      have hone : ∀ x ∈ db.users, x.id = uid → x = existing := by
        intro x hx hxe
        exact List.inj_on_of_nodup_map hnd hx hexmem (by rw [hxe, hexid])
      have hndafter : (((adminDeleteUser db uid).2.users).map User.id).Nodup := by
        rw [hdb]
        exact nodup_ids_filter db.users _ hnd
      refine ⟨?_, hndafter⟩
      rw [hdb]
      by_cases hexadm : existing.role = Role.admin
      · have hcnt2 : ¬(countAdmins db.users ≤ 1) := by
          intro hle
          exact hguard ⟨hexadm, hle⟩
        have hle := countAdmins_le_filter_erase db.users uid hnd
        omega
      · rw [countAdmins_filter_of_target_not_admin]
        · exact h1
        · intro x hx hxe
          rw [hone x hx hxe]
          exact hexadm

/-- Helper: the last-admin invariant is preserved by every sequence of
admin PATCH and DELETE requests. -/
theorem applyAdminOps_invariant (ops : List AdminOp) (db : Db)
    (hnd : (db.users.map User.id).Nodup) (h1 : 1 ≤ countAdmins db.users) :
    1 ≤ countAdmins (applyAdminOps db ops).users ∧
    (((applyAdminOps db ops).users.map User.id).Nodup) := by
  induction ops generalizing db with
  | nil => exact ⟨h1, hnd⟩
  | cons op rest ih =>
    cases op with
    | patchOp uid p =>
      have h := adminPatchUser_step db uid p hnd h1
      exact ih _ h.2 h.1
    | deleteOp uid =>
      have h := adminDeleteUser_step db uid hnd h1
      exact ih _ h.2 h.1

/-- C1: when the target of an admin PATCH (demotion to user) or DELETE
is the only account with role admin, the request fails with 409
cannot_remove_last_admin respectively cannot_delete_last_admin, and —
with unique primary-key ids — no sequence of these two operations can
ever bring the admin count from at least one down to zero. -/
theorem C1_last_admin_invariant (db : Db) (t : User) (p : AdminPatch)
    (hnd : (db.users.map User.id).Nodup)
    (hmem : t ∈ db.users) (hadm : t.role = Role.admin)
    (hcnt : countAdmins db.users = 1)
    (hrole : p.role = some Role.user)
    (hid : t.id ≠ "") :
    (adminPatchUser db t.id p).1 = ApiResponse.error 409 "cannot_remove_last_admin" ∧
    (adminDeleteUser db t.id).1 = ApiResponse.error 409 "cannot_delete_last_admin" ∧
    (∀ ops : List AdminOp, 1 ≤ countAdmins (applyAdminOps db ops).users) := by
  have hfind : findUserById db.users t.id = some t := findUserById_of_nodup db.users t hnd hmem
  have hpres : adminPatchPresent p = true := by simp [adminPatchPresent, hrole]
  refine ⟨?_, ?_, ?_⟩
  · have hguard : t.role = Role.admin ∧ p.role = some Role.user
        ∧ countAdmins db.users ≤ 1 := ⟨hadm, hrole, by omega⟩
    simp [adminPatchUser, hid, hpres, hfind, hguard]
  · have hguard : t.role = Role.admin ∧ countAdmins db.users ≤ 1 := ⟨hadm, by omega⟩
    simp [adminDeleteUser, hid, hfind, hguard]
  · intro ops
    exact (applyAdminOps_invariant ops db hnd (by omega)).1

theorem C1_witness :
    (adminPatchUser db0 "a1" patchDemote).1
      = ApiResponse.error 409 "cannot_remove_last_admin" :=
  (C1_last_admin_invariant db0 adminRoot patchDemote (by decide) (by decide) rfl
    (by decide) rfl (by decide)).1

end FBC
